import Mathlib

/-!
Verification of the File-Editor demo frontend: a shallow embedding of the
backend proxy helper, the access-guard middleware, the file-management page
handlers and the chat session component, with theorems checking the
natural-language specification against the code.
-/

namespace FileEditor

/-- JSON values, as produced and consumed by the platform JSON
serializer (`JSON.stringify` / `response.json()`). -/
inductive Json where
  | null
  | bool (b : Bool)
  | num (n : Int)
  | str (s : String)
  | arr (elems : List Json)
  | obj (fields : List (String × Json))
deriving Repr

/-- Escape one character for a JSON string literal (model of the platform
serializer; only the quote and backslash escapes matter here). -/
def escapeChar (c : Char) : String :=
  if c = '"' then "\\\"" else if c = '\\' then "\\\\" else String.singleton c

/-- Quote a string as a JSON string literal. -/
def jsonQuote (s : String) : String :=
  "\"" ++ String.join (s.data.map escapeChar) ++ "\""

mutual

/-- Model of the platform `JSON.stringify` on our `Json` values. -/
def Json.stringify : Json → String
  | .null => "null"
  | .bool true => "true"
  | .bool false => "false"
  | .num n => toString n
  | .str s => jsonQuote s
  | .arr elems => "[" ++ stringifyElems elems ++ "]"
  | .obj fields => "\x7b" ++ stringifyFields fields ++ "\x7d"

/-- Serialize a JSON array body, comma separated. -/
def stringifyElems : List Json → String
  | [] => ""
  | j :: rest => Json.stringify j ++ (if rest.isEmpty then "" else ",") ++ stringifyElems rest

/-- Serialize JSON object fields, comma separated. -/
def stringifyFields : List (String × Json) → String
  | [] => ""
  | (k, j) :: rest =>
      jsonQuote k ++ ":" ++ Json.stringify j ++ (if rest.isEmpty then "" else ",") ++
        stringifyFields rest

end

/-! ## Chat Session Component (`Chat`, from the chat page source)

The `Message` and `MessageChunk` types and the `ws.onmessage` / `sendMessage`
handlers are translated from the chat page component. React state updates
(`setMessages`, `setInput`, `setConnectionStatus`) become explicit state
passing; `new Date()` and `crypto.randomUUID()` become explicit `now` /
`freshId` parameters. -/

/-- The `sender_type` field of a chat message (`"user" | "assistant"`). -/
inductive SenderType where
  | user
  | assistant
deriving Repr, DecidableEq

/-- The `Message` record of the chat page. -/
structure Message where
  id : String
  content : String
  sender_type : SenderType
  createdAt : Nat
  isComplete : Bool
deriving Repr, DecidableEq

/-- The `ChunkType` union (`"start" | "chunk" | "end"`); `end` is a Lean
keyword, so the last constructor is named `end_`. -/
inductive ChunkType where
  | start
  | chunk
  | end_
deriving Repr, DecidableEq

/-- The `MessageChunk` wire record. -/
structure MessageChunk where
  message_id : String
  type : ChunkType
  content : Option String
deriving Repr, DecidableEq

/-- JavaScript string coercion applied by `message.content += messageChunk.content`
when `content` is `undefined`. -/
def jsStringOfOpt : Option String → String
  | some s => s
  | none => "undefined"

/-- The `ws.onmessage` handler of the chat component: how one parsed
`MessageChunk` transforms the message list. -/
def onmessage (prevMessages : List Message) (messageChunk : MessageChunk) (now : Nat) :
    List Message :=
  match messageChunk.type with
  | .start =>
      prevMessages ++
        [{ id := messageChunk.message_id, content := "", sender_type := .assistant,
           createdAt := now, isComplete := false }]
  | .chunk =>
      prevMessages.map (fun message =>
        if message.id = messageChunk.message_id then
          { message with content := message.content ++ jsStringOfOpt messageChunk.content }
        else message)
  | .end_ =>
      prevMessages.map (fun message =>
        if message.id = messageChunk.message_id then
          { message with isComplete := true }
        else message)

/-- Process a list of chunks in arrival order. -/
def processChunks (ms : List Message) (cs : List MessageChunk) (now : Nat) : List Message :=
  cs.foldl (fun acc c => onmessage acc c now) ms

/-- WebSocket `readyState` values; `open` is a Lean keyword, so that
constructor is named `open_`. -/
inductive ReadyState where
  | connecting
  | open_
  | closing
  | closed
deriving Repr, DecidableEq

/-- Connection status of the chat component. -/
inductive ConnStatus where
  | connected
  | disconnected
  | error
deriving Repr, DecidableEq

/-- The WebSocket object as the chat component observes it in `sendMessage`. -/
structure WebSocketModel where
  readyState : ReadyState
deriving Repr, DecidableEq

/-- Component-local state touched by `sendMessage`. -/
structure ChatState where
  currentWs : Option WebSocketModel
  connectionStatus : ConnStatus
  messages : List Message
  input : String
deriving Repr, DecidableEq

/-- Result of one `sendMessage` call: the new state, the raw text frames sent
over the socket, and whether `connectWebSocket` was invoked. -/
structure SendEffects where
  state : ChatState
  sentFrames : List String
  reconnectAttempted : Bool
deriving Repr, DecidableEq

/-- The `sendMessage` handler of the chat component. `freshId` stands for
`crypto.randomUUID()` and `now` for `new Date()`. -/
def sendMessage (s : ChatState) (freshId : String) (now : Nat) : SendEffects :=
  match s.currentWs with
  | none => { state := s, sentFrames := [], reconnectAttempted := false }
  | some ws =>
      if s.input = "" then { state := s, sentFrames := [], reconnectAttempted := false }
      else
        let withMsg : ChatState :=
          { s with
            messages := s.messages ++
              [{ id := freshId, content := s.input, sender_type := .user,
                 createdAt := now, isComplete := false }],
            input := "" }
        if ws.readyState = .open_ then
          { state := withMsg, sentFrames := [s.input], reconnectAttempted := false }
        else if ws.readyState = .closed then
          { state := { withMsg with connectionStatus := .error }, sentFrames := [],
            reconnectAttempted := true }
        else
          { state := { withMsg with connectionStatus := .error }, sentFrames := [],
            reconnectAttempted := false }

/-! ### Reconnect timers (`ws.onopen` / `ws.onclose` and the cleanup effect)

`reconnectTimeoutRef` is the ref cell holding the id of the most recently
scheduled timer; `pending` lists the timers that are scheduled and neither
fired nor canceled, as pairs (timer id, delay in ms); `nextId` generates
fresh timer ids for `setTimeout`. -/

/-- Timer-related state of the chat component. -/
structure TimerState where
  reconnectTimeoutRef : Option Nat
  pending : List (Nat × Nat)
  nextId : Nat
  connectionStatus : ConnStatus
deriving Repr, DecidableEq

/-- `if (reconnectTimeoutRef.current) clearTimeout(...); reconnectTimeoutRef.current = null`,
as it appears in `ws.onopen` and in the effect cleanup. -/
def clearReconnectTimeout (s : TimerState) : TimerState :=
  match s.reconnectTimeoutRef with
  | some t =>
      { s with pending := s.pending.filter (fun p => p.1 ≠ t), reconnectTimeoutRef := none }
  | none => s

/-- The `ws.onopen` handler: set status connected, clear any pending
reconnect timer recorded in the ref. -/
def onopen (s : TimerState) : TimerState :=
  clearReconnectTimeout { s with connectionStatus := .connected }

/-- The `ws.onclose` handler: set status disconnected; when the close code is
1000, `setTimeout(connectWebSocket, 1000)` and store the new timer id in the
ref (the previous timer is not cleared here). -/
def onclose (s : TimerState) (code : Nat) : TimerState :=
  let s' : TimerState := { s with connectionStatus := .disconnected }
  if code = 1000 then
    { s' with
      pending := s'.pending ++ [(s'.nextId, 1000)],
      reconnectTimeoutRef := some s'.nextId,
      nextId := s'.nextId + 1 }
  else s'

/-! ## Backend Proxy Helper (`backendRequest`, from `lib/api-utils`)

The fuller variant of the helper (FormData bodies, `responseType` json/blob)
is embedded. Cookies of the incoming request are an association list of
(name, value); `request.cookies.get` yields the value when the cookie is
present. The backend `fetch` is an oracle mapping the outbound request to a
backend response; `response.json()` is its `bodyJson` field, where `none`
means the parse throws (caught by the helper's try/catch). -/

/-- The fixed backend base URL. -/
def BACKEND_URL : String := "http://backend:8000"

/-- `request.cookies.get(name)`: the value of the cookie when present. -/
def cookiesGet (cookies : List (String × String)) (name : String) : Option String :=
  (cookies.find? (fun p => p.1 == name)).map (fun p => p.2)

/-- JavaScript object update `headers[k] = v` on an association list:
overwrite the first occurrence of the key, else append. -/
def setHeader : List (String × String) → String → String → List (String × String)
  | [], k, v => [(k, v)]
  | p :: rest, k, v => if p.1 = k then (k, v) :: rest else p :: setHeader rest k v

/-- Lookup of a header value by key. -/
def getHeader (headers : List (String × String)) (k : String) : Option String :=
  (headers.find? (fun p => p.1 == k)).map (fun p => p.2)

/-- Multipart form data, passed through the helper opaquely. -/
structure FormData where
  entries : List (String × String)
deriving Repr, DecidableEq

/-- A request body handed to the helper: a plain structured object or
multipart form data. -/
inductive Body where
  | json (j : Json)
  | formData (fd : FormData)
deriving Repr

/-- Binary payload, passed through the helper opaquely. -/
structure Blob where
  bytes : List Nat
deriving Repr, DecidableEq

/-- The `responseType` option of the helper. -/
inductive ResponseType where
  | json
  | blob
deriving Repr, DecidableEq

/-- The `BackendRequestOptions` record, with the source defaults. -/
structure BackendRequestOptions where
  path : String
  method : String := "GET"
  requiresAuth : Bool := true
  body : Option Body := none
  additionalHeaders : List (String × String) := []
  responseType : ResponseType := .json

/-- Body actually attached to the outbound `fetch`: a serialized string or
form data passed through. -/
inductive OutBody where
  | str (s : String)
  | form (fd : FormData)
deriving Repr

/-- The outbound request issued by the helper's `fetch`. -/
structure OutboundRequest where
  url : String
  method : String
  headers : List (String × String)
  body : Option OutBody

/-- The backend's response as the helper observes it: status, headers, the
result of `response.json()` (`none` = the parse throws) and of
`response.blob()`. -/
structure BackendResponse where
  status : Nat
  headers : List (String × String)
  bodyJson : Option Json
  bodyBlob : Blob

/-- Payload of the outward response: JSON data or a blob. -/
inductive Payload where
  | json (j : Json)
  | blob (b : Blob)
deriving Repr

/-- Model of the outward `NextResponse`. -/
structure NextResponseModel where
  status : Nat
  headers : List (String × String)
  payload : Payload
deriving Repr

/-- `NextResponse.json(data, status)`. -/
def nextResponseJson (data : Json) (status : Nat) : NextResponseModel :=
  { status := status, headers := [], payload := .json data }

/-- The fixed 401 response of the auth check. -/
def notAuthenticated : NextResponseModel :=
  nextResponseJson (Json.obj [("detail", Json.str "Not authenticated")]) 401

/-- The fixed 500 response of the catch-all error handler. -/
def internalServerError : NextResponseModel :=
  nextResponseJson (Json.obj [("detail", Json.str "Internal server error")]) 500

/-- `response.ok`: status in the 200–299 range. -/
def responseOk (status : Nat) : Bool :=
  200 ≤ status && status < 300

/-- The auth section of the helper: on missing or empty `auth_token` cookie
return the fixed 401, else attach the `Authorization` bearer header to the
additional headers. -/
def authStep (cookies : List (String × String)) (opts : BackendRequestOptions) :
    Except NextResponseModel (List (String × String)) :=
  if opts.requiresAuth then
    match cookiesGet cookies "auth_token" with
    | none => .error notAuthenticated
    | some value =>
        if value = "" then .error notAuthenticated
        else .ok (setHeader opts.additionalHeaders "Authorization" ("Bearer " ++ value))
  else .ok opts.additionalHeaders

/-- The body section of the helper: form data passes through with the headers
untouched; a plain object is serialized to JSON with `Content-Type`
`application/json` set. -/
def bodyStep (headers : List (String × String)) :
    Option Body → List (String × String) × Option OutBody
  | none => (headers, none)
  | some (.formData fd) => (headers, some (.form fd))
  | some (.json j) =>
      (setHeader headers "Content-Type" "application/json", some (.str (Json.stringify j)))

/-- Everything the helper did in one call: the outbound backend request (if
any was issued), the number of `response.json()` parses attempted, and the
outward response. -/
structure ProxyTrace where
  outbound : Option OutboundRequest
  jsonParses : Nat
  response : NextResponseModel

/-- The response-handling section of the helper, after the `fetch` returned:
non-ok statuses relay the backend's JSON error body (or null on 204) with the
original status; ok statuses relay a blob with the backend's headers when
`responseType` is blob, else the parsed JSON body (null on 204). A failing
`response.json()` parse lands in the catch and yields the 500. Returns the
number of `response.json()` parses attempted and the outward response. -/
def handleResponse (resp : BackendResponse) (responseType : ResponseType) :
    Nat × NextResponseModel :=
  if !responseOk resp.status then
    if resp.status ≠ 204 then
      match resp.bodyJson with
      | some errorData => (1, nextResponseJson errorData resp.status)
      | none => (1, internalServerError)
    else (0, nextResponseJson Json.null resp.status)
  else if responseType = .blob then
    (0, { status := resp.status, headers := resp.headers, payload := .blob resp.bodyBlob })
  else
    if resp.status ≠ 204 then
      match resp.bodyJson with
      | some data => (1, nextResponseJson data 200)
      | none => (1, internalServerError)
    else (0, nextResponseJson Json.null 200)

/-- The `backendRequest` helper (the variant with FormData and blob
support), as a function of the incoming cookies, the options, and the
backend oracle. -/
def backendRequest (cookies : List (String × String)) (opts : BackendRequestOptions)
    (backend : OutboundRequest → BackendResponse) : ProxyTrace :=
  match authStep cookies opts with
  | .error resp => { outbound := none, jsonParses := 0, response := resp }
  | .ok headers =>
      let bp := bodyStep headers opts.body
      let outReq : OutboundRequest :=
        { url := BACKEND_URL ++ opts.path, method := opts.method,
          headers := bp.1, body := bp.2 }
      let handled := handleResponse (backend outReq) opts.responseType
      { outbound := some outReq, jsonParses := handled.1, response := handled.2 }

/-! ## Access Guard (`middleware`) -/

/-- The fixed list of protected paths. -/
def protectedRoutes : List String := ["/files", "/chat"]

/-- The fixed list of public-only paths. -/
def publicRoutes : List String := ["/login", "/signup"]

/-- Outcome of the middleware: a redirect or pass-through. -/
inductive MiddlewareResult where
  | redirect (url : String)
  | next
deriving Repr, DecidableEq

/-- The `middleware` function: redirect to `/login` from a protected path
with no `auth_token` cookie, to `/chat` from a public path with the cookie
present (presence only — the value is not inspected). -/
def middleware (path : String) (cookies : List (String × String)) : MiddlewareResult :=
  let isProtectedRoute := protectedRoutes.contains path
  let isPublicRoute := publicRoutes.contains path
  let token := cookiesGet cookies "auth_token"
  if isProtectedRoute ∧ token = none then .redirect "/login"
  else if isPublicRoute ∧ token ≠ none then .redirect "/chat"
  else .next

/-! ## File Management Component (files page handlers)

`handleFileUpload` and `handleFileDelete` with the fetch response supplied
as a parameter; the local `files` state is the explicit list. -/

/-- The `FileMetadata` record rendered by the files table. -/
structure FileMetadata where
  id : String
  name : String
  size : Nat
  content_type : String
deriving Repr, DecidableEq

/-- The response to the upload POST: `ok` flag and the parsed record. -/
structure UploadResponse where
  ok : Bool
  data : FileMetadata
deriving Repr, DecidableEq

/-- `handleFileUpload`: no selected file is an early return; a non-ok
response leaves the list unchanged; on success the returned record is
appended. -/
def handleFileUpload (files : List FileMetadata) (selectedFile : Option Unit)
    (res : UploadResponse) : List FileMetadata :=
  match selectedFile with
  | none => files
  | some _ => if !res.ok then files else files ++ [res.data]

/-- `handleFileDelete`: a non-ok response leaves the list unchanged; on
success the record with the given id is filtered out. -/
def handleFileDelete (files : List FileMetadata) (fileId : String) (resOk : Bool) :
    List FileMetadata :=
  if !resOk then files else files.filter (fun file => file.id ≠ fileId)

/-! ## Helper lemmas -/

/-- Mapping an update guarded by an identifier over a list of messages none of
which bears that identifier is the identity. -/
theorem map_ite_id_of_ne (g : Message → Message) (i : String) (ms : List Message)
    (h : ∀ m ∈ ms, m.id ≠ i) :
    ms.map (fun m => if m.id = i then g m else m) = ms := by
  induction ms with
  | nil => rfl
  | cons m rest ih =>
      simp only [List.map_cons]
      rw [if_neg (h m (List.mem_cons_self m rest)), ih (fun x hx => h x (List.mem_cons_of_mem m hx))]

/-- Indexing a mapped list. -/
theorem get_map_eq {α β : Type} (f : α → β) (l : List α) (k : Nat)
    (hk : k < l.length) (hk' : k < (l.map f).length) :
    (l.map f).get ⟨k, hk'⟩ = f (l.get ⟨k, hk⟩) := by
  induction l generalizing k with
  | nil => exact absurd hk (Nat.not_lt_zero k)
  | cons a rest ih =>
      cases k with
      | zero => rfl
      | succ n => exact ih n (Nat.lt_of_succ_lt_succ hk) (Nat.lt_of_succ_lt_succ hk')

/-! ## Claim theorems -/

/-- C1 counterexample: in the Chat Session Component, with a live connection
object and the non-empty input buffer "hello", `sendMessage` appends the user
message record with completion flag false, not true as the claim states. -/
theorem sendMessage_complete_flag_counterexample :
    (sendMessage
      { currentWs := some { readyState := .open_ }, connectionStatus := .connected,
        messages := [], input := "hello" } "id-1" 0).state.messages =
      [{ id := "id-1", content := "hello", sender_type := .user, createdAt := 0,
         isComplete := false }] := by
  decide

/-- C1 (amended): in the Chat Session Component, for every non-empty input
buffer and existing connection object, sending a user message appends exactly
one new user message record whose identifier is the freshly generated one and
whose completion flag is false, and clears the input buffer. -/
theorem sendMessage_appends_user_message (s : ChatState) (ws : WebSocketModel)
    (freshId : String) (now : Nat)
    (hws : s.currentWs = some ws) (hin : s.input ≠ "") :
    (sendMessage s freshId now).state.messages =
      s.messages ++ [{ id := freshId, content := s.input, sender_type := .user,
                       createdAt := now, isComplete := false }] ∧
    (sendMessage s freshId now).state.input = "" := by
  obtain ⟨cw, cstat, msgs, inp⟩ := s
  simp only at hws hin
  subst hws
  cases hr : ws.readyState <;> simp [sendMessage, hin, hr]

/-- C1 witness: the amended append/clear behavior evaluated on the concrete
state of the counterexample. -/
theorem sendMessage_appends_user_message_witness :
    (sendMessage
      { currentWs := some { readyState := .open_ }, connectionStatus := .connected,
        messages := [], input := "hi" } "u1" 5).state.messages =
      [{ id := "u1", content := "hi", sender_type := .user, createdAt := 5,
         isComplete := false }] ∧
    (sendMessage
      { currentWs := some { readyState := .open_ }, connectionStatus := .connected,
        messages := [], input := "hi" } "u1" 5).state.input = "" := by
  have h := sendMessage_appends_user_message
    { currentWs := some { readyState := .open_ }, connectionStatus := .connected,
      messages := [], input := "hi" } { readyState := .open_ } "u1" 5 rfl (by decide)
  simpa using h

/-- C2 counterexample: two transport closes with code 1000, starting from a
state with no pending timer, leave two pending reconnect timers — the close
handler does not cancel the previously scheduled timer, so "at most one
pending reconnect timer" fails. -/
theorem onclose_two_pending_timers_counterexample :
    (onclose (onclose
      { reconnectTimeoutRef := none, pending := [], nextId := 0,
        connectionStatus := .connected } 1000) 1000).pending = [(0, 1000), (1, 1000)] := by
  decide

/-- C2 (amended): every transport close with code 1000 schedules exactly one
reconnect attempt after a 1000ms delay without canceling any previously
scheduled reconnect timer (cancellation of the timer recorded in the ref
happens on successful open), and closes with any other code schedule no
reconnect. -/
theorem onclose_schedules_reconnect (s : TimerState) (code : Nat) :
    (code = 1000 →
      (onclose s code).pending = s.pending ++ [(s.nextId, 1000)] ∧
      (onclose s code).reconnectTimeoutRef = some s.nextId) ∧
    (code ≠ 1000 →
      (onclose s code).pending = s.pending ∧
      (onclose s code).reconnectTimeoutRef = s.reconnectTimeoutRef) ∧
    (∀ t, s.reconnectTimeoutRef = some t →
      (onopen s).pending = s.pending.filter (fun p => p.1 ≠ t) ∧
      (onopen s).reconnectTimeoutRef = none) := by
  refine ⟨fun h => ?_, fun h => ?_, fun t ht => ?_⟩
  · simp [onclose, h]
  · simp [onclose, h]
  · simp [onopen, clearReconnectTimeout, ht]

/-- C2 witness: the amended close/open timer behavior evaluated on a concrete
state with one pending timer. -/
theorem onclose_schedules_reconnect_witness :
    (onclose
      { reconnectTimeoutRef := some 0, pending := [(0, 1000)], nextId := 1,
        connectionStatus := .disconnected } 1000).pending = [(0, 1000), (1, 1000)] := by
  have h := (onclose_schedules_reconnect
    { reconnectTimeoutRef := some 0, pending := [(0, 1000)], nextId := 1,
      connectionStatus := .disconnected } 1000).1 rfl
  simpa using h.1

/-- The chunk sequence of the C3 test property. -/
def chunkSeqM1 : List MessageChunk :=
  [{ message_id := "m1", type := .start, content := none },
   { message_id := "m1", type := .chunk, content := some "Hi" },
   { message_id := "m1", type := .chunk, content := some " there" },
   { message_id := "m1", type := .end_, content := none }]

/-- C3: in the Chat Session Component, starting from a message list not
containing identifier "m1", processing start / chunk "Hi" / chunk " there" /
end for "m1" in order appends exactly one record with identifier "m1", sender
role assistant, content "Hi there" and completion flag true. -/
theorem chunk_sequence_assembles_message (ms : List Message) (now : Nat)
    (h : ∀ m ∈ ms, m.id ≠ "m1") :
    processChunks ms chunkSeqM1 now =
      ms ++ [{ id := "m1", content := "Hi there", sender_type := .assistant,
               createdAt := now, isComplete := true }] := by
  have e1 : processChunks ms chunkSeqM1 now =
      onmessage (onmessage (onmessage (onmessage ms
        { message_id := "m1", type := .start, content := none } now)
        { message_id := "m1", type := .chunk, content := some "Hi" } now)
        { message_id := "m1", type := .chunk, content := some " there" } now)
        { message_id := "m1", type := .end_, content := none } now := rfl
  rw [e1]
  have hstart : onmessage ms { message_id := "m1", type := .start, content := none } now =
      ms ++ [{ id := "m1", content := "", sender_type := .assistant,
               createdAt := now, isComplete := false }] := rfl
  rw [hstart]
  have hc1 : onmessage (ms ++ [{ id := "m1", content := "", sender_type := .assistant,
                                 createdAt := now, isComplete := false }])
      { message_id := "m1", type := .chunk, content := some "Hi" } now =
      ms ++ [{ id := "m1", content := "Hi", sender_type := .assistant,
               createdAt := now, isComplete := false }] := by
    simp only [onmessage, List.map_append]
    rw [map_ite_id_of_ne _ "m1" ms h]
    simp [jsStringOfOpt]
  rw [hc1]
  have hc2 : onmessage (ms ++ [{ id := "m1", content := "Hi", sender_type := .assistant,
                                 createdAt := now, isComplete := false }])
      { message_id := "m1", type := .chunk, content := some " there" } now =
      ms ++ [{ id := "m1", content := "Hi there", sender_type := .assistant,
               createdAt := now, isComplete := false }] := by
    simp only [onmessage, List.map_append]
    rw [map_ite_id_of_ne _ "m1" ms h]
    simp [jsStringOfOpt]
  rw [hc2]
  simp only [onmessage, List.map_append]
  rw [map_ite_id_of_ne _ "m1" ms h]
  simp

/-- C3 witness: the assembled "m1" record evaluated from a concrete starting
list containing an unrelated message. -/
theorem chunk_sequence_assembles_message_witness :
    processChunks
      [{ id := "u9", content := "hey", sender_type := .user, createdAt := 1,
         isComplete := false }] chunkSeqM1 2 =
      [{ id := "u9", content := "hey", sender_type := .user, createdAt := 1,
         isComplete := false },
       { id := "m1", content := "Hi there", sender_type := .assistant,
         createdAt := 2, isComplete := true }] := by
  have h := chunk_sequence_assembles_message
    [{ id := "u9", content := "hey", sender_type := .user, createdAt := 1,
       isComplete := false }] 2 (by decide)
  simpa using h

/-- C7: in the Chat Session Component, processing a chunk-phase or end-phase
chunk preserves the length of the message list, leaves every record whose
identifier differs from the chunk's message_id unchanged at its position, and
when no record bears that identifier leaves the entire list unchanged. -/
theorem onmessage_frame_property (ms : List Message) (c : MessageChunk) (now : Nat)
    (hty : c.type = .chunk ∨ c.type = .end_) :
    (onmessage ms c now).length = ms.length ∧
    (∀ k (hk : k < ms.length) (hk' : k < (onmessage ms c now).length),
      (ms.get ⟨k, hk⟩).id ≠ c.message_id →
        (onmessage ms c now).get ⟨k, hk'⟩ = ms.get ⟨k, hk⟩) ∧
    ((∀ m ∈ ms, m.id ≠ c.message_id) → onmessage ms c now = ms) := by
  obtain ⟨mid, ty, co⟩ := c
  rcases hty with hty | hty <;> simp only at hty <;> subst hty <;>
    simp only [onmessage] <;>
    refine ⟨List.length_map ms _, fun k hk hk' hne => ?_, fun hall => ?_⟩
  · rw [get_map_eq _ ms k hk hk', if_neg hne]
  · exact map_ite_id_of_ne _ mid ms hall
  · rw [get_map_eq _ ms k hk hk', if_neg hne]
  · exact map_ite_id_of_ne _ mid ms hall

/-- C7 witness: a chunk for an unknown identifier is a silent no-op on a
concrete one-element list. -/
theorem onmessage_frame_property_witness :
    onmessage
      [{ id := "a", content := "x", sender_type := .user, createdAt := 0,
         isComplete := true }]
      { message_id := "b", type := .chunk, content := some "y" } 7 =
      [{ id := "a", content := "x", sender_type := .user, createdAt := 0,
         isComplete := true }] := by
  have h := onmessage_frame_property
    [{ id := "a", content := "x", sender_type := .user, createdAt := 0,
       isComplete := true }]
    { message_id := "b", type := .chunk, content := some "y" } 7 (Or.inl rfl)
  exact h.2.2 (by decide)

/-- C10: in the Chat Session Component, a start-phase chunk appends a new
assistant record even when records with the same identifier already exist (the
count of records bearing the identifier always grows by one), and a
chunk-phase or end-phase chunk updates every record bearing that identifier:
each matching record's updated image is in the resulting list. -/
theorem start_no_dedup_updates_all (ms : List Message) (i : String) (s : String)
    (now : Nat) :
    ((onmessage ms { message_id := i, type := .start, content := none } now).filter
        (fun m => m.id == i)).length =
      ((ms.filter (fun m => m.id == i)).length) + 1 ∧
    (∀ m ∈ ms, m.id = i →
      { m with content := m.content ++ s } ∈
        onmessage ms { message_id := i, type := .chunk, content := some s } now) ∧
    (∀ m ∈ ms, m.id = i →
      { m with isComplete := true } ∈
        onmessage ms { message_id := i, type := .end_, content := none } now) := by
  refine ⟨?_, fun m hm hid => ?_, fun m hm hid => ?_⟩
  · simp [onmessage, List.filter_append]
  · have hmem := List.mem_map_of_mem
      (fun m => if m.id = i then { m with content := m.content ++ jsStringOfOpt (some s) }
                else m) hm
    simp only [] at hmem
    rw [if_pos hid] at hmem
    simpa [onmessage, jsStringOfOpt] using hmem
  · have hmem := List.mem_map_of_mem
      (fun m => if m.id = i then { m with isComplete := true } else m) hm
    simp only [] at hmem
    rw [if_pos hid] at hmem
    simpa [onmessage] using hmem

/-- C10 witness: with two records already bearing identifier "d", a start
chunk for "d" makes it three, and a chunk-phase chunk updates both existing
records. -/
theorem start_no_dedup_updates_all_witness :
    ((onmessage
        [{ id := "d", content := "A", sender_type := .assistant, createdAt := 0,
           isComplete := false },
         { id := "d", content := "B", sender_type := .assistant, createdAt := 1,
           isComplete := false }]
        { message_id := "d", type := .start, content := none } 9).filter
        (fun m => m.id == "d")).length = 3 ∧
    ({ id := "d", content := "A!", sender_type := .assistant, createdAt := 0,
       isComplete := false } : Message) ∈
      onmessage
        [{ id := "d", content := "A", sender_type := .assistant, createdAt := 0,
           isComplete := false },
         { id := "d", content := "B", sender_type := .assistant, createdAt := 1,
           isComplete := false }]
        { message_id := "d", type := .chunk, content := some "!" } 9 ∧
    ({ id := "d", content := "B!", sender_type := .assistant, createdAt := 1,
       isComplete := false } : Message) ∈
      onmessage
        [{ id := "d", content := "A", sender_type := .assistant, createdAt := 0,
           isComplete := false },
         { id := "d", content := "B", sender_type := .assistant, createdAt := 1,
           isComplete := false }]
        { message_id := "d", type := .chunk, content := some "!" } 9 := by
  have h := start_no_dedup_updates_all
    [{ id := "d", content := "A", sender_type := .assistant, createdAt := 0,
       isComplete := false },
     { id := "d", content := "B", sender_type := .assistant, createdAt := 1,
       isComplete := false }] "d" "!" 9
  refine ⟨by simpa using h.1, ?_, ?_⟩
  · have := h.2.1
      { id := "d", content := "A", sender_type := .assistant, createdAt := 0,
        isComplete := false } (by simp) rfl
    simpa using this
  · have := h.2.1
      { id := "d", content := "B", sender_type := .assistant, createdAt := 1,
        isComplete := false } (by simp) rfl
    simpa using this

/-- Updating one header key preserves the absence of a different key. -/
theorem setHeader_preserves_ne (hs : List (String × String)) (k v target : String)
    (hkk : k ≠ target) (h : ∀ p ∈ hs, p.1 ≠ target) :
    ∀ p ∈ setHeader hs k v, p.1 ≠ target := by
  induction hs with
  | nil =>
      intro p hp
      simp only [setHeader, List.mem_singleton] at hp
      subst hp
      exact hkk
  | cons q rest ih =>
      intro p hp
      simp only [setHeader] at hp
      by_cases hq : q.1 = k
      · rw [if_pos hq] at hp
        rcases List.mem_cons.mp hp with hp | hp
        · subst hp; exact hkk
        · exact h p (List.mem_cons_of_mem q hp)
      · rw [if_neg hq] at hp
        rcases List.mem_cons.mp hp with hp | hp
        · rw [hp]; exact h q (List.mem_cons_self q rest)
        · exact ih (fun x hx => h x (List.mem_cons_of_mem q hx)) p hp

/-- Looking up the key just set yields the new value. -/
theorem getHeader_setHeader_self (hs : List (String × String)) (k v : String) :
    getHeader (setHeader hs k v) k = some v := by
  induction hs with
  | nil => simp [setHeader, getHeader]
  | cons q rest ih =>
      by_cases hq : q.1 = k
      · simp [setHeader, hq, getHeader]
      · simp only [setHeader, if_neg hq]
        simpa [getHeader, List.find?_cons, hq] using ih

/-- The headers produced by a successful auth check: either the additional
headers untouched (auth not required) or with the bearer header set. -/
theorem authStep_ok_characterization (cookies : List (String × String))
    (opts : BackendRequestOptions) (headers : List (String × String))
    (h : authStep cookies opts = .ok headers) :
    headers = opts.additionalHeaders ∨
    ∃ value, headers =
      setHeader opts.additionalHeaders "Authorization" ("Bearer " ++ value) := by
  unfold authStep at h
  split at h
  · split at h
    · exact absurd h (by simp)
    · split at h
      · exact absurd h (by simp)
      · exact Or.inr ⟨_, (Except.ok.inj h).symm⟩
  · exact Or.inl (Except.ok.inj h).symm

/-- A status-204 backend response is handled with no JSON parse: null payload
in json mode, the blob in blob mode. -/
theorem handleResponse_204 (resp : BackendResponse) (rt : ResponseType)
    (h : resp.status = 204) :
    (handleResponse resp rt).1 = 0 ∧
    (rt = .json → (handleResponse resp rt).2.payload = Payload.json Json.null) ∧
    (rt = .blob → (handleResponse resp rt).2.payload = Payload.blob resp.bodyBlob) := by
  unfold handleResponse
  rw [h]
  cases rt <;> simp [responseOk, nextResponseJson]

/-- C4: for every call to the Backend Proxy Helper with auth required, if the
auth_token cookie is absent or has an empty value, the result is exactly
status 401 with payload detail "Not authenticated", no JSON parse, and no
outbound backend request. -/
theorem backendRequest_missing_cookie_401 (cookies : List (String × String))
    (opts : BackendRequestOptions) (backend : OutboundRequest → BackendResponse)
    (hauth : opts.requiresAuth = true)
    (hcookie : cookiesGet cookies "auth_token" = none ∨
      cookiesGet cookies "auth_token" = some "") :
    (backendRequest cookies opts backend).outbound = none ∧
    (backendRequest cookies opts backend).jsonParses = 0 ∧
    (backendRequest cookies opts backend).response.status = 401 ∧
    (backendRequest cookies opts backend).response.payload =
      Payload.json (Json.obj [("detail", Json.str "Not authenticated")]) := by
  have hstep : authStep cookies opts = .error notAuthenticated := by
    unfold authStep
    rw [hauth, if_pos rfl]
    rcases hcookie with h | h <;> (rw [h]; try simp)
  unfold backendRequest
  rw [hstep]
  exact ⟨rfl, rfl, rfl, rfl⟩

/-- C4 witness: the 401 short-circuit evaluated with no cookies at all. -/
theorem backendRequest_missing_cookie_401_witness :
    (backendRequest [] { path := "/users/me" }
        (fun _ => { status := 200, headers := [], bodyJson := some Json.null,
                    bodyBlob := { bytes := [] } })).outbound = none ∧
    (backendRequest [] { path := "/users/me" }
        (fun _ => { status := 200, headers := [], bodyJson := some Json.null,
                    bodyBlob := { bytes := [] } })).jsonParses = 0 ∧
    (backendRequest [] { path := "/users/me" }
        (fun _ => { status := 200, headers := [], bodyJson := some Json.null,
                    bodyBlob := { bytes := [] } })).response.status = 401 ∧
    (backendRequest [] { path := "/users/me" }
        (fun _ => { status := 200, headers := [], bodyJson := some Json.null,
                    bodyBlob := { bytes := [] } })).response.payload =
      Payload.json (Json.obj [("detail", Json.str "Not authenticated")]) := by
  exact backendRequest_missing_cookie_401 [] { path := "/users/me" }
    (fun _ => { status := 200, headers := [], bodyJson := some Json.null,
                bodyBlob := { bytes := [] } }) rfl (Or.inl rfl)

/-- C5: for every call to the Backend Proxy Helper that issues an outbound
request, a multipart form-data body is carried unchanged with no Content-Type
set by the helper (none is present unless the caller supplied one), and a
plain structured-object body is carried as its JSON serialization with
Content-Type application/json. -/
theorem backendRequest_body_handling (cookies : List (String × String))
    (opts : BackendRequestOptions) (backend : OutboundRequest → BackendResponse)
    (r : OutboundRequest)
    (hr : (backendRequest cookies opts backend).outbound = some r) :
    (∀ fd, opts.body = some (.formData fd) →
      r.body = some (.form fd) ∧
      ((∀ p ∈ opts.additionalHeaders, p.1 ≠ "Content-Type") →
        ∀ p ∈ r.headers, p.1 ≠ "Content-Type")) ∧
    (∀ j, opts.body = some (.json j) →
      r.body = some (.str (Json.stringify j)) ∧
      getHeader r.headers "Content-Type" = some "application/json") := by
  unfold backendRequest at hr
  cases hstep : authStep cookies opts with
  | error resp => rw [hstep] at hr; exact absurd hr (by simp)
  | ok headers =>
      rw [hstep] at hr
      simp only [Option.some.injEq] at hr
      subst hr
      constructor
      · intro fd hbody
        rw [hbody]
        refine ⟨rfl, fun hnone p hp => ?_⟩
        rcases authStep_ok_characterization cookies opts headers hstep with hh | ⟨value, hh⟩
        · subst hh; exact hnone p hp
        · subst hh
          exact setHeader_preserves_ne opts.additionalHeaders "Authorization"
            ("Bearer " ++ value) "Content-Type" (by decide) hnone p hp
      · intro j hbody
        rw [hbody]
        exact ⟨rfl, getHeader_setHeader_self headers "Content-Type" "application/json"⟩

/-- C5 witness: a JSON-object body call evaluated concretely carries the
serialized object and the application/json content type. -/
theorem backendRequest_body_handling_witness :
    getHeader [("Authorization", "Bearer tok"), ("Content-Type", "application/json")]
      "Content-Type" = some "application/json" := by
  have hr : (backendRequest [("auth_token", "tok")]
      { path := "/x", body := some (.json (Json.obj [("a", Json.str "b")])) }
      (fun _ => { status := 200, headers := [], bodyJson := some Json.null,
                  bodyBlob := { bytes := [] } })).outbound =
      some { url := "http://backend:8000/x", method := "GET",
             headers := [("Authorization", "Bearer tok"),
                         ("Content-Type", "application/json")],
             body := some (.str (Json.stringify (Json.obj [("a", Json.str "b")]))) } := rfl
  have h := backendRequest_body_handling [("auth_token", "tok")]
    { path := "/x", body := some (.json (Json.obj [("a", Json.str "b")])) }
    (fun _ => { status := 200, headers := [], bodyJson := some Json.null,
                bodyBlob := { bytes := [] } }) _ hr
  exact (h.2 (Json.obj [("a", Json.str "b")]) rfl).2

/-- C8 counterexample: a 204 backend response handled with responseType blob
is relayed with a blob payload, not a null JSON payload, so "the relayed
payload is null" fails for this 204 response. -/
theorem status204_blob_counterexample :
    (backendRequest [("auth_token", "t")]
        { path := "/files/1/download/", responseType := .blob }
        (fun _ => { status := 204, headers := [("x", "y")], bodyJson := none,
                    bodyBlob := { bytes := [] } })).response.payload ≠
      Payload.json Json.null := by
  intro h
  have e : (backendRequest [("auth_token", "t")]
      { path := "/files/1/download/", responseType := .blob }
      (fun _ => { status := 204, headers := [("x", "y")], bodyJson := none,
                  bodyBlob := { bytes := [] } })).response.payload =
      Payload.blob { bytes := [] } := rfl
  rw [e] at h
  exact Payload.noConfusion h

/-- C8 (amended): for every backend response with status 204 handled by the
Backend Proxy Helper (204 is a success status, so the error path never sees
it), no JSON parse of the response body is attempted; with the default json
response type the relayed payload is null, and with the blob response type
the body is relayed as the blob. -/
theorem status204_no_json_parse (cookies : List (String × String))
    (opts : BackendRequestOptions) (backend : OutboundRequest → BackendResponse)
    (r : OutboundRequest)
    (hr : (backendRequest cookies opts backend).outbound = some r)
    (h204 : (backend r).status = 204) :
    (backendRequest cookies opts backend).jsonParses = 0 ∧
    (opts.responseType = .json →
      (backendRequest cookies opts backend).response.payload = Payload.json Json.null) ∧
    (opts.responseType = .blob →
      (backendRequest cookies opts backend).response.payload =
        Payload.blob (backend r).bodyBlob) := by
  unfold backendRequest at hr ⊢
  cases hstep : authStep cookies opts with
  | error resp =>
      rw [hstep] at hr
      exact absurd hr (by simp)
  | ok headers =>
      rw [hstep] at hr
      simp only [Option.some.injEq] at hr
      subst hr
      exact handleResponse_204 _ _ h204

/-- C8 witness: a 204 backend response with default json response type yields
a null payload and no parse, evaluated concretely. -/
theorem status204_no_json_parse_witness :
    (backendRequest [("auth_token", "t")] { path := "/files/9/" }
        (fun _ => { status := 204, headers := [], bodyJson := none,
                    bodyBlob := { bytes := [] } })).jsonParses = 0 ∧
    (backendRequest [("auth_token", "t")] { path := "/files/9/" }
        (fun _ => { status := 204, headers := [], bodyJson := none,
                    bodyBlob := { bytes := [] } })).response.payload =
      Payload.json Json.null := by
  have h := status204_no_json_parse [("auth_token", "t")] { path := "/files/9/" }
    (fun _ => { status := 204, headers := [], bodyJson := none,
                bodyBlob := { bytes := [] } })
    { url := "http://backend:8000/files/9/", method := "GET",
      headers := [("Authorization", "Bearer t")], body := none } rfl rfl
  exact ⟨h.1, h.2.1 rfl⟩

/-- C6: in the File Management Component, for every upload or delete request
that fails (non-ok response), the local file-list state is left exactly
unchanged: a failed upload appends no record and a failed delete removes no
record. -/
theorem file_failure_leaves_state_unchanged (files : List FileMetadata)
    (sel : Option Unit) (res : UploadResponse) (fileId : String)
    (hres : res.ok = false) :
    handleFileUpload files sel res = files ∧
    handleFileDelete files fileId false = files := by
  constructor
  · cases sel with
    | none => rfl
    | some u => simp [handleFileUpload, hres]
  · rfl

/-- C6 witness: a failed upload and a failed delete evaluated on a concrete
one-element file list. -/
theorem file_failure_leaves_state_unchanged_witness :
    handleFileUpload [{ id := "1", name := "a.txt", size := 3, content_type := "text/plain" }]
      (some ())
      { ok := false,
        data := { id := "2", name := "b.txt", size := 4, content_type := "text/plain" } } =
      [{ id := "1", name := "a.txt", size := 3, content_type := "text/plain" }] ∧
    handleFileDelete [{ id := "1", name := "a.txt", size := 3, content_type := "text/plain" }]
      "1" false =
      [{ id := "1", name := "a.txt", size := 3, content_type := "text/plain" }] := by
  exact file_failure_leaves_state_unchanged
    [{ id := "1", name := "a.txt", size := 3, content_type := "text/plain" }]
    (some ())
    { ok := false,
      data := { id := "2", name := "b.txt", size := 4, content_type := "text/plain" } }
    "1" rfl

/-- C9: with an auth_token cookie present but holding the empty string, the
Access Guard treats the user as authenticated (no redirect away from the
protected paths, redirect away from a public-only path), while the Backend
Proxy Helper treats the same cookie as missing and answers 401 with no
outbound request — the two presence checks disagree on this input. -/
theorem empty_cookie_guard_vs_proxy :
    middleware "/files" [("auth_token", "")] = .next ∧
    middleware "/chat" [("auth_token", "")] = .next ∧
    middleware "/login" [("auth_token", "")] = .redirect "/chat" ∧
    (backendRequest [("auth_token", "")] { path := "/users/me" }
        (fun _ => { status := 200, headers := [], bodyJson := some Json.null,
                    bodyBlob := { bytes := [] } })).outbound = none ∧
    (backendRequest [("auth_token", "")] { path := "/users/me" }
        (fun _ => { status := 200, headers := [], bodyJson := some Json.null,
                    bodyBlob := { bytes := [] } })).response.status = 401 := by
  exact ⟨rfl, rfl, rfl, rfl, rfl⟩

end FileEditor
